import Mathlib

/-!
Verification of the session-registry core of the SM64 Co-op DX Discord bot
(`sm64coopdx_bot.py`).

The repository under verification ships only the command/scheduler file
`sm64coopdx_bot.py`; the `SessionManager` class (`session_manager.py`), the
helper `is_long_session` (`utils.py`) and the configuration constants live in
modules absent from the source tree, so those are modelled from the
specification (sections 3, 4.1, 4.2, 6).  Everything else — the `/play`,
`/session` and `/stop` handlers, the two maintenance sweeps and the readiness
gating of their timers — is translated directly from the Python source.

Time is modelled as natural-number seconds.  Exceptions raised by external
calls (Discord sends, the registry sweep body) are modelled with `Except`;
a `try/except` block in the source becomes a total function that pattern
matches on the `Except` value.
-/

namespace SM64Bot

/-- `Modelled from the spec:` the Session record of §3 (defined in the absent
`session_manager.py`).  `end_time` is unset while active; `participant_count`
is at minimum 1 (the host). -/
structure Session where
  guild_id : Nat
  channel_id : Nat
  host_user_id : Nat
  host_username : String
  password : Option String
  start_time : Nat
  end_time : Option Nat
  is_active : Bool
  participant_count : Nat
deriving Repr, DecidableEq

/-- The registry's internal mapping, guild id → record, kept in insertion
order (Python dict). -/
abbrev Registry : Type := List (Nat × Session)

/-- `Modelled from the spec:` §4.1 `get_duration` — elapsed seconds
`(end_time or now) - start_time`, clamped to zero (Nat subtraction). -/
def get_duration (s : Session) (now : Nat) : Nat :=
  (s.end_time.getD now) - s.start_time

/-- `Modelled from the spec:` §4.2 `get_session` — read-only lookup, the
stored record or nothing. -/
def get_session (reg : Registry) (gid : Nat) : Option Session :=
  (List.find? (fun p => p.1 == gid) reg).map Prod.snd

/-- `Modelled from the spec:` §4.2 `start_session` — creates and stores a new
active record for the guild, overwriting any prior record unconditionally. -/
def start_session (reg : Registry) (gid cid uid : Nat) (uname : String)
    (pwd : Option String) (now : Nat) : Session × Registry :=
  let s : Session :=
    { guild_id := gid, channel_id := cid, host_user_id := uid,
      host_username := uname, password := pwd, start_time := now,
      end_time := none, is_active := true, participant_count := 1 }
  (s, List.filter (fun p => p.1 != gid) reg ++ [(gid, s)])

/-- `Modelled from the spec:` §4.2 `end_session` — stamps `end_time = now`,
sets `is_active = false`; silently a no-op when no record exists. -/
def end_session (reg : Registry) (gid now : Nat) : Registry :=
  List.map (fun p =>
    if p.1 == gid then
      (p.1, { p.2 with end_time := some now, is_active := false })
    else p) reg

/-- `Modelled from the spec:` §4.2 `remove_session` — unconditionally deletes
the mapping entry for the guild, regardless of active/ended state. -/
def remove_session (reg : Registry) (gid : Nat) : Registry :=
  List.filter (fun p => p.1 != gid) reg

/-- `Modelled from the spec:` §4.2 `get_all_active_sessions` — every stored
record whose `is_active` is true, in storage order. -/
def get_all_active_sessions (reg : Registry) : List Session :=
  List.filter (fun s => s.is_active) (List.map Prod.snd reg)

/-- `Modelled from the spec:` `is_long_session` from the absent `utils.py` —
true when the duration (seconds) exceeds the configured threshold (hours),
§4.3 / §6: "duration exceeds a configured warning threshold". -/
def is_long_session (duration : Nat) (threshold_hours : Nat) : Bool :=
  duration > threshold_hours * 3600

/-- A well-formed registry: guild keys are distinct and each record carries
the guild id it is stored under (true of everything `start_session` builds). -/
def RegistryWF (reg : Registry) : Prop :=
  (List.map Prod.fst reg).Nodup ∧ ∀ p ∈ reg, (Prod.snd p).guild_id = Prod.fst p

/-! ### Python string truthiness for the password argument

`play` (line 117) computes `contraseña if contraseña.strip() else None`.
`str.strip()` removes leading and trailing whitespace; the resulting string is
truthy iff nonempty. -/

/-- Whitespace characters stripped by Python `str.strip()`: exactly the
characters for which `str.isspace()` holds — tab through carriage return
(0x09–0x0d), the separators 0x1c–0x1f, space, next line (0x85), no-break
space (0xa0), ogham space mark (0x1680), the Unicode space separators
0x2000–0x200a, line/paragraph separator (0x2028, 0x2029), narrow no-break
space (0x202f), medium mathematical space (0x205f) and ideographic space
(0x3000). -/
def pyIsSpace (c : Char) : Bool :=
  (9 ≤ c.toNat ∧ c.toNat ≤ 13) ∨ (28 ≤ c.toNat ∧ c.toNat ≤ 32) ∨
    c.toNat = 0x85 ∨ c.toNat = 0xa0 ∨ c.toNat = 0x1680 ∨
    (0x2000 ≤ c.toNat ∧ c.toNat ≤ 0x200a) ∨ c.toNat = 0x2028 ∨
    c.toNat = 0x2029 ∨ c.toNat = 0x202f ∨ c.toNat = 0x205f ∨
    c.toNat = 0x3000

/-- Python `str.strip()`: drop leading and trailing whitespace. -/
def pyStrip (s : String) : String :=
  String.mk (List.reverse
    (List.dropWhile pyIsSpace (List.reverse (List.dropWhile pyIsSpace s.toList))))

/-- Python truthiness of a session's optional password
(`if user_session.password`): `None` and `""` are falsy. -/
def pwdTruthy : Option String → Bool
  | none => false
  | some str => str ≠ ""

/-! ### The command handlers (translated from `sm64coopdx_bot.py`)

A handler's effect on the registry and its scheduled removals is captured in
`World`; registry calls it performs are recorded in a `RegCall` trace. -/

/-- Registry state plus the not-yet-fired scheduled removals
(`asyncio.sleep(300)` continuations), as (fire_time, guild_id) pairs. -/
structure World where
  reg : Registry
  pending : List (Nat × Nat)
deriving DecidableEq

/-- A mutating call into the session registry, with the time it happens. -/
inductive RegCall where
  | startCall (gid t : Nat)
  | endCall (gid t : Nat)
  | removeCall (gid t : Nat)
deriving Repr, DecidableEq

/-- Outcome rendered by the `/stop` handler. -/
inductive StopOutcome where
  | noSession
  | accessDenied
  | stopped
  | sendFailed
deriving Repr, DecidableEq

/-- The `/stop` handler (`stop_session`, lines 243–322).  Checks, in source
order: record exists and is active (lines 250–257), actor is the host
(lines 259–268); then calls `end_session` (line 273), sends the farewell
embed (line 309, may raise — `sendOk = false` lands in the outer `except`
so the removal is never scheduled), sleeps 300 seconds and calls
`remove_session` (lines 311–312).  The sleep is a scheduled resumption: the
pending entry `(now + 300, gid)` fires later via `fireDue`; the call trace
records the whole handler lifetime. -/
def stop_session (sendOk : Bool) (now gid uid : Nat) (w : World) :
    StopOutcome × World × List RegCall :=
  match get_session w.reg gid with
  | none => (.noSession, w, [])
  | some s =>
    if !s.is_active then (.noSession, w, [])
    else if s.host_user_id != uid then (.accessDenied, w, [])
    else
      let reg' := end_session w.reg gid now
      if sendOk then
        (.stopped, ⟨reg', w.pending ++ [(now + 300, gid)]⟩,
          [.endCall gid now, .removeCall gid (now + 300)])
      else
        (.sendFailed, ⟨reg', w.pending⟩, [.endCall gid now])

/-- Fire every scheduled removal due at time `t`: each resumed coroutine
calls `remove_session(guild_id)` unconditionally (line 312). -/
def fireDue (t : Nat) (w : World) : World :=
  ⟨List.foldl (fun r p => remove_session r p.2)
      w.reg (List.filter (fun p => p.1 == t) w.pending),
   List.filter (fun p => p.1 != t) w.pending⟩

/-- Outcome rendered by the `/play` handler. -/
inductive PlayOutcome where
  | stats (inSession : Bool) (duration : Option Nat) (hasPassword : Option Bool)
  | announced (host : String) (startTime : Nat) (shownPassword : Option String)
deriving Repr, DecidableEq

/-- The `/play` handler (`play`, lines 62–163).  With `usuario` given
(lines 70–115): scan `get_all_active_sessions()` for the first session whose
`host_user_id` matches, render the stats embed, and return without touching
the registry.  Without it (lines 117–148): normalize the password by Python
truthiness of `contraseña.strip()`, call `start_session`, and announce the
session, echoing the password field only when one was kept. -/
def play (now gid cid uid : Nat) (uname : String) (contrasena : String)
    (usuario : Option Nat) (w : World) : PlayOutcome × World × List RegCall :=
  match usuario with
  | some target =>
    match List.find? (fun s => s.host_user_id == target)
        (get_all_active_sessions w.reg) with
    | some s =>
      (.stats true (some (get_duration s now)) (some (pwdTruthy s.password)), w, [])
    | none => (.stats false none none, w, [])
  | none =>
    let password_to_use := if pyStrip contrasena ≠ "" then some contrasena else none
    let (s, reg') := start_session w.reg gid cid uid uname password_to_use now
    (.announced s.host_username s.start_time password_to_use,
      ⟨reg', w.pending⟩, [.startCall gid now])

/-- Outcome rendered by the `/session` handler. -/
inductive InfoOutcome where
  | noActive
  | info (host : String) (participants duration startTime channelId : Nat)
      (longAlert : Bool)
deriving Repr, DecidableEq

/-- The `/session` handler (`session_info`, lines 166–240): look up the
guild's own record via `get_session`; if absent or inactive render the
informational "No Active Session" embed (lines 172–179); otherwise report
host, participant count, duration, start time, channel and the long-session
alert.  Purely read-only. -/
def session_info (threshold now gid : Nat) (w : World) : InfoOutcome × World :=
  match get_session w.reg gid with
  | none => (.noActive, w)
  | some s =>
    if !s.is_active then (.noActive, w)
    else
      (.info s.host_username s.participant_count (get_duration s now)
        s.start_time s.channel_id (is_long_session (get_duration s now) threshold), w)

/-! ### The maintenance sweeps (lines 324–360)

Each sweep body is translated with explicit error injection: the fallible
operation it wraps is a parameter returning `Except`.  A `try/except` in the
source becomes a total `match` on the `Except` value; log lines become a
`List String`. -/

/-- Did the `Except` computation succeed? -/
def exOk {ε α : Type} : Except ε α → Bool
  | .ok _ => true
  | .error _ => false

/-- One tick of the hourly cleanup sweep (`cleanup_sessions`, lines 324–332):
run `cleanup_old_sessions` (a parameter here — its body lives in the absent
`session_manager.py` and may raise), log the count when positive, and catch
any error (lines 331–332), leaving the registry as it was. -/
def cleanup_sessions (op : Registry → Except String (Nat × Registry))
    (reg : Registry) : Registry × List String :=
  match op reg with
  | .ok (n, reg') => (reg', if n > 0 then ["Cleaned up old sessions"] else [])
  | .error e => (reg, ["Error in session cleanup: " ++ e])

/-- A notification event emitted by the warning sweep: the embed sent to
`session.channel_id` (line 354) for the guild logged at line 355. -/
structure Notification where
  channel_id : Nat
  guild_id : Nat
  duration : Nat
deriving Repr, DecidableEq

/-- The per-session body of the warning sweep (lines 340–357): compute the
duration, and when `is_long_session` holds, inside the inner `try`
(lines 344–357) resolve the channel (`bot.get_channel`, may be absent) and
send the embed (may raise, caught at lines 356–357 without affecting other
sessions). -/
def warnOne (getChannel : Nat → Bool) (send : Session → Except String Unit)
    (threshold now : Nat) (s : Session) : List Notification × List String :=
  if is_long_session (get_duration s now) threshold then
    if getChannel s.channel_id then
      match send s with
      | .ok _ =>
        ([⟨s.channel_id, s.guild_id, get_duration s now⟩],
          ["Sent long session warning for guild"])
      | .error e => ([], ["Failed to send session warning: " ++ e])
    else ([], [])
  else ([], [])

/-- One tick of the two-hourly warning sweep (`session_warnings`,
lines 334–360): iterate over `get_all_active_sessions()`, handling each
session with `warnOne`; the outer `try` (lines 359–360) is already total
here because every per-session failure is caught inside `warnOne`. -/
def session_warnings (getChannel : Nat → Bool)
    (send : Session → Except String Unit) (threshold : Nat) (reg : Registry)
    (now : Nat) : List Notification × List String :=
  let results := List.map (warnOne getChannel send threshold now)
    (get_all_active_sessions reg)
  (List.flatten (List.map Prod.fst results),
   List.flatten (List.map Prod.snd results))

/-- Semantics of a `tasks.loop`: run the tick bodies in order; an *uncaught*
exception in a body stops the loop (discord.py cancels the task), so the
second component counts the ticks that actually completed. -/
def runLoopTicks (bodies : List (Registry → Except String Registry))
    (reg : Registry) : Registry × Nat :=
  match bodies with
  | [] => (reg, 0)
  | b :: rest =>
    match b reg with
    | .error _ => (reg, 0)
    | .ok reg' =>
      let (r, k) := runLoopTicks rest reg'
      (r, k + 1)

/-- The cleanup sweep body as seen by its `tasks.loop`: thanks to the
`try/except` of lines 327–332 it never lets an exception escape. -/
def cleanupLoopBody (op : Registry → Except String (Nat × Registry)) :
    Registry → Except String Registry :=
  fun reg => .ok (cleanup_sessions op reg).1

/-! ### Timer start-up gating (lines 21–39 and 362–368)

`on_ready` starts both `tasks.loop` timers (lines 36–37) once the gateway
connection is ready, and each loop's `before_loop` hook awaits
`bot.wait_until_ready()` (lines 362–368), so no iteration can run before the
readiness signal.  Neither loop has a `count` argument or a `stop`/`cancel`
call anywhere in the source, so after readiness a further tick of either
timer is always possible.  Traces are lists of events, most recent first. -/

inductive BotEv where
  | ready
  | cleanupTick
  | warningTick
deriving Repr, DecidableEq

/-- Event traces the program can produce, most recent event first.  `ready`
may occur at any point (gateway behaviour); a tick of either timer requires
`ready` to have occurred earlier, because the timer is only started from
`on_ready` (lines 36–37) and its first iteration additionally awaits
`wait_until_ready` (lines 362–368); neither loop carries a stop condition, so
ticks stay enabled forever once `ready` has occurred. -/
inductive ValidTrace : List BotEv → Prop where
  | nil : ValidTrace []
  | ready {tr : List BotEv} : ValidTrace tr → ValidTrace (.ready :: tr)
  | cleanup {tr : List BotEv} : ValidTrace tr → BotEv.ready ∈ tr →
      ValidTrace (.cleanupTick :: tr)
  | warning {tr : List BotEv} : ValidTrace tr → BotEv.ready ∈ tr →
      ValidTrace (.warningTick :: tr)

/-- Is the event a timer tick (as opposed to the readiness signal)? -/
def isTick : BotEv → Bool
  | .ready => false
  | .cleanupTick => true
  | .warningTick => true

/-! ### The restart-race scenario (spec §8, last bullet)

A session is started at t = 0, stopped by its host at t = 10 (so the stale
removal is scheduled for t = 310), a brand-new session for the same guild is
started at t = 110, and the scheduled removal fires at t = 310. -/

def raceW0 : World := ⟨[], []⟩

def raceW1 : World := (play 0 1 10 7 "ana" "" none raceW0).2.1

def raceW2 : World := (stop_session true 10 1 7 raceW1).2.1

def raceW3 : World := (play 110 1 10 7 "ana" "" none raceW2).2.1

def raceW4 : World := fireDue 310 raceW3

/-- The brand-new record created by the restart at t = 110. -/
def raceNewSession : Session :=
  { guild_id := 1, channel_id := 10, host_user_id := 7, host_username := "ana",
    password := none, start_time := 110, end_time := none, is_active := true,
    participant_count := 1 }

/-! ## Theorems -/

/-- A fixed session used to instantiate witnesses: guild 1, channel 10,
host 7, active since t = 0, no password. -/
def demoSession : Session :=
  { guild_id := 1, channel_id := 10, host_user_id := 7, host_username := "ana",
    password := none, start_time := 0, end_time := none, is_active := true,
    participant_count := 1 }

/-- C1: the spec requires a removal scheduled by a session's ending to leave
any brand-new session for the same guild untouched; the code's
`await asyncio.sleep(300); remove_session(guild_id)` (lines 311–312) deletes
unconditionally.  In the §8 scenario the record present just before the
removal fires is the new active session started at t = 110, and the stale
removal deletes it: after t = 310 the registry no longer maps guild 1 at
all. -/
theorem stale_removal_deletes_new_record :
    (∃ s, get_session raceW3.reg 1 = some s ∧ s.is_active = true ∧
      s.start_time = 110) ∧
    get_session raceW4.reg 1 = none := by
  exact ⟨⟨raceNewSession, rfl, rfl, rfl⟩, rfl⟩

/-- C2: a `/stop` from anyone but the host is rejected with the
access-denied outcome (distinct from the no-session outcome); the world is
unchanged, so the session stays active and in the registry, and no registry
call (`end_session`, `remove_session`) is made. -/
theorem stop_by_non_host_denied (sendOk : Bool) (now gid uid : Nat) (w : World)
    (s : Session) (hs : get_session w.reg gid = some s)
    (hact : s.is_active = true) (hhost : s.host_user_id ≠ uid) :
    stop_session sendOk now gid uid w = (.accessDenied, w, []) ∧
    StopOutcome.accessDenied ≠ StopOutcome.noSession ∧
    get_session (stop_session sendOk now gid uid w).2.1.reg gid = some s := by
  have hrun : stop_session sendOk now gid uid w = (.accessDenied, w, []) := by
    simp [stop_session, hs, hact, hhost]
  exact ⟨hrun, by simp, by rw [hrun]; exact hs⟩

/-- C2 witness: user 2 tries to stop host 7's active session. -/
theorem stop_by_non_host_denied_witness :
    stop_session true 50 1 2 ⟨[(1, demoSession)], []⟩ =
      (.accessDenied, ⟨[(1, demoSession)], []⟩, []) :=
  (stop_by_non_host_denied true 50 1 2 ⟨[(1, demoSession)], []⟩ demoSession
    rfl rfl (by decide)).1

/-- C3: a `/stop` from the host of an active session (with the farewell
response delivered) performs exactly the calls `end_session(gid)` at the
stop time and `remove_session(gid)` at stop time + 300, in that order; the
registry is the ended one and the removal is left scheduled for
`now + 300`. -/
theorem stop_by_host_calls (now gid uid : Nat) (w : World) (s : Session)
    (hs : get_session w.reg gid = some s) (hact : s.is_active = true)
    (hhost : s.host_user_id = uid) :
    (stop_session true now gid uid w).2.2 =
      [RegCall.endCall gid now, RegCall.removeCall gid (now + 300)] ∧
    (stop_session true now gid uid w).1 = .stopped ∧
    (stop_session true now gid uid w).2.1 =
      ⟨end_session w.reg gid now, w.pending ++ [(now + 300, gid)]⟩ := by
  simp [stop_session, hs, hact, hhost]

/-- C3 witness: host 7 stops the demo session at t = 50. -/
theorem stop_by_host_calls_witness :
    (stop_session true 50 1 7 ⟨[(1, demoSession)], []⟩).2.2 =
      [RegCall.endCall 1 50, RegCall.removeCall 1 350] :=
  (stop_by_host_calls 50 1 7 ⟨[(1, demoSession)], []⟩ demoSession
    rfl rfl rfl).1

/-- C6: with no stored record for the guild, or an inactive one, both
`/stop` and `/session` report the informational no-active-session outcome
and leave the world untouched, making no registry call. -/
theorem no_session_informational (sendOk : Bool) (threshold now gid uid : Nat)
    (w : World)
    (h : get_session w.reg gid = none ∨
      ∃ s, get_session w.reg gid = some s ∧ s.is_active = false) :
    stop_session sendOk now gid uid w = (.noSession, w, []) ∧
    session_info threshold now gid w = (.noActive, w) := by
  rcases h with h | ⟨s, hs, hact⟩
  · exact ⟨by simp [stop_session, h], by simp [session_info, h]⟩
  · exact ⟨by simp [stop_session, hs, hact], by simp [session_info, hs, hact]⟩

/-- C6 witness: empty registry, guild 1. -/
theorem no_session_informational_witness :
    stop_session true 0 1 7 ⟨[], []⟩ = (.noSession, ⟨[], []⟩, []) ∧
    session_info 2 0 1 ⟨[], []⟩ = (.noActive, ⟨[], []⟩) :=
  no_session_informational true 2 0 1 7 ⟨[], []⟩ (Or.inl rfl)

/-- C10: `/play` with a target user returns after rendering statistics
without any registry call, leaving the world (every mapping entry, every
record, every scheduled removal) exactly as it was. -/
theorem play_stats_pure (now gid cid uid : Nat) (uname contrasena : String)
    (target : Nat) (w : World) :
    (play now gid cid uid uname contrasena (some target) w).2.1 = w ∧
    (play now gid cid uid uname contrasena (some target) w).2.2 = [] := by
  unfold play
  cases h : List.find? (fun s => s.host_user_id == target)
      (get_all_active_sessions w.reg) <;> simp [h]

/-- One session's notification output, as a conditional on its own data and
its own send result only. -/
theorem warnOne_notifs (getChannel : Nat → Bool)
    (send : Session → Except String Unit) (threshold now : Nat) (s : Session) :
    (warnOne getChannel send threshold now s).1 =
      if is_long_session (get_duration s now) threshold &&
          (getChannel s.channel_id && exOk (send s)) then
        [⟨s.channel_id, s.guild_id, get_duration s now⟩] else [] := by
  unfold warnOne
  cases hl : is_long_session (get_duration s now) threshold <;>
    cases hc : getChannel s.channel_id <;>
      cases hsnd : send s <;> simp [exOk, hl, hc, hsnd]

/-- Flattening the per-session outputs yields one notification per session
that is over threshold, has a resolvable channel, and whose own send
succeeded — independent of every other session's send result. -/
theorem flatten_warnOne (getChannel : Nat → Bool)
    (send : Session → Except String Unit) (threshold now : Nat)
    (l : List Session) :
    List.flatten (List.map (fun s => (warnOne getChannel send threshold now s).1) l) =
      List.map (fun s =>
          (⟨s.channel_id, s.guild_id, get_duration s now⟩ : Notification))
        (List.filter (fun s => is_long_session (get_duration s now) threshold &&
            (getChannel s.channel_id && exOk (send s))) l) := by
  induction l with
  | nil => rfl
  | cons s rest ih =>
    simp only [List.map_cons, List.flatten_cons, List.filter_cons]
    rw [warnOne_notifs, ih]
    by_cases h : (is_long_session (get_duration s now) threshold &&
        (getChannel s.channel_id && exOk (send s))) = true
    · rw [if_pos h, if_pos h]; rfl
    · rw [if_neg h, if_neg h]; rfl

/-- The notifications of one warning-sweep tick, characterized as a pointwise
filter of the active sessions. -/
theorem session_warnings_notifs (getChannel : Nat → Bool)
    (send : Session → Except String Unit) (threshold : Nat) (reg : Registry)
    (now : Nat) :
    (session_warnings getChannel send threshold reg now).1 =
      List.map (fun s =>
          (⟨s.channel_id, s.guild_id, get_duration s now⟩ : Notification))
        (List.filter (fun s => is_long_session (get_duration s now) threshold &&
            (getChannel s.channel_id && exOk (send s)))
          (get_all_active_sessions reg)) := by
  unfold session_warnings
  dsimp only
  rw [List.map_map]
  exact flatten_warnOne getChannel send threshold now (get_all_active_sessions reg)

/-- C4: sweep failures are isolated.  (1) With the `try/except` of
lines 327–332 in place, the cleanup timer completes every scheduled tick no
matter which cleanup operations raise.  (2) The warning sweep's notification
list is a pointwise filter of the active sessions: a session is notified iff
it is over threshold, its channel resolves, and *its own* send succeeded, so
one channel's failure neither suppresses the remaining notifications nor
aborts the sweep. -/
theorem sweep_failures_isolated :
    (∀ (ops : List (Registry → Except String (Nat × Registry)))
        (reg : Registry),
      (runLoopTicks (List.map cleanupLoopBody ops) reg).2 = ops.length) ∧
    (∀ (getChannel : Nat → Bool) (send : Session → Except String Unit)
        (threshold : Nat) (reg : Registry) (now : Nat),
      (session_warnings getChannel send threshold reg now).1 =
        List.map (fun s =>
            (⟨s.channel_id, s.guild_id, get_duration s now⟩ : Notification))
          (List.filter (fun s =>
              is_long_session (get_duration s now) threshold &&
                (getChannel s.channel_id && exOk (send s)))
            (get_all_active_sessions reg))) := by
  constructor
  · intro ops
    induction ops with
    | nil => intro reg; rfl
    | cons op rest ih =>
      intro reg
      simp [runLoopTicks, cleanupLoopBody, ih]
  · exact session_warnings_notifs

/-- In a well-formed registry the stored records whose `guild_id` is `g` are
exactly the one record mapped under key `g`. -/
theorem records_of_guild (g : Nat) (reg : Registry) (s : Session)
    (hid : ∀ p ∈ reg, (Prod.snd p).guild_id = Prod.fst p)
    (hnd : (List.map Prod.fst reg).Nodup)
    (hmem : (g, s) ∈ reg) :
    List.filter (fun t => t.guild_id == g) (List.map Prod.snd reg) = [s] := by
  induction reg with
  | nil => cases hmem
  | cons p rest ih =>
    obtain ⟨k, t⟩ := p
    simp only [List.map_cons, List.nodup_cons] at hnd
    obtain ⟨hk, hnd'⟩ := hnd
    rcases List.mem_cons.mp hmem with heq | hmem'
    · injection heq with h1 h2
      subst h1; subst h2
      have hgid : s.guild_id = g := hid (g, s) (List.mem_cons_self _ _)
      simp only [List.map_cons, List.filter_cons]
      rw [if_pos (by simp [hgid])]
      congr 1
      apply List.filter_eq_nil_iff.mpr
      intro u hu
      obtain ⟨q, hq, rfl⟩ := List.mem_map.mp hu
      have hq1 : q.2.guild_id = q.1 := hid q (List.mem_cons_of_mem _ hq)
      have hne : q.1 ≠ g := fun h => hk (h ▸ List.mem_map_of_mem Prod.fst hq)
      simp [hq1, hne]
    · have hkg : k ≠ g := by
        intro h
        subst h
        exact hk (List.mem_map_of_mem Prod.fst hmem')
      have htg : t.guild_id = k := hid (k, t) (List.mem_cons_self _ _)
      simp only [List.map_cons, List.filter_cons]
      rw [if_neg (by simp [htg, hkg])]
      exact ih (fun q hq => hid q (List.mem_cons_of_mem _ hq)) hnd' hmem'

/-- Two boolean filters on a list commute. -/
theorem filter_comm_bool (p q : α → Bool) (l : List α) :
    List.filter p (List.filter q l) = List.filter q (List.filter p l) := by
  rw [List.filter_filter, List.filter_filter]
  apply List.filter_congr
  intro a _
  exact Bool.and_comm _ _

/-- C5: on every warning-sweep tick — with channels resolvable and sends
succeeding — a guild whose stored session is active and over the warning
threshold receives exactly one notification, targeted at that session's
channel and carrying its duration, while a guild whose session is inactive
or at/under the threshold receives none.  The tick time `now` is universally
quantified and the sweep keeps no per-session state, so a session still
active and over threshold at a later tick is notified again then. -/
theorem warning_per_session (getChannel : Nat → Bool)
    (send : Session → Except String Unit) (threshold now g : Nat)
    (reg : Registry) (s : Session) (hwf : RegistryWF reg)
    (hmem : (g, s) ∈ reg) (hgc : ∀ c, getChannel c = true)
    (hsend : ∀ t, send t = Except.ok ()) :
    (List.filter (fun n => n.guild_id == g)
        (session_warnings getChannel send threshold reg now).1).length =
      (if s.is_active && is_long_session (get_duration s now) threshold
        then 1 else 0) ∧
    (∀ n ∈ (session_warnings getChannel send threshold reg now).1,
      n.guild_id = g → n = ⟨s.channel_id, g, get_duration s now⟩) := by
  obtain ⟨hnd, hid⟩ := hwf
  have hsg : s.guild_id = g := hid (g, s) hmem
  have hchar : List.filter (fun n => n.guild_id == g)
      (session_warnings getChannel send threshold reg now).1 =
      if s.is_active && is_long_session (get_duration s now) threshold
      then [⟨s.channel_id, g, get_duration s now⟩] else [] := by
    rw [session_warnings_notifs]
    simp only [hgc, hsend, exOk, Bool.and_true]
    rw [List.filter_map]
    unfold get_all_active_sessions
    simp only [Function.comp_def]
    rw [filter_comm_bool (fun t : Session => t.guild_id == g)
        (fun t : Session => is_long_session (get_duration t now) threshold),
      filter_comm_bool (fun t : Session => t.guild_id == g)
        (fun t : Session => t.is_active),
      records_of_guild g reg s hid hnd hmem]
    by_cases ha : s.is_active = true
    · by_cases hl : is_long_session (get_duration s now) threshold = true
      · simp [List.filter_singleton, ha, hl, hsg]
      · simp [List.filter_singleton, ha, hl]
    · simp [List.filter_singleton, ha]
  refine ⟨?_, ?_⟩
  · rw [hchar]
    split <;> rfl
  · intro n hn hng
    have hmemf : n ∈ List.filter (fun n => n.guild_id == g)
        (session_warnings getChannel send threshold reg now).1 :=
      List.mem_filter.mpr ⟨hn, by simp [hng]⟩
    rw [hchar] at hmemf
    split at hmemf
    · exact List.mem_singleton.mp hmemf
    · cases hmemf

/-- C5 witness: one active session (guild 1, channel 10), 7300 s old at the
tick, warning threshold 2 h: exactly one notification for guild 1. -/
theorem warning_per_session_witness :
    (List.filter (fun n => n.guild_id == 1)
        (session_warnings (fun _ => true) (fun _ => Except.ok ()) 2
          [(1, demoSession)] 7300).1).length = 1 := by
  have h := (warning_per_session (fun _ => true) (fun _ => Except.ok ()) 2 7300 1
    [(1, demoSession)] demoSession ⟨by decide, by decide⟩ (by decide)
    (fun _ => rfl) (fun _ => rfl)).1
  exact h.trans (by decide)

/-- C7: the query surface.  With a target user, `/play` scans the active
sessions for one hosted by that user: if none of them is, it reports the
not-in-session status; if some is, it reports active status, duration and
password presence of a session the target hosts.  With no target, `/session`
reports the invoking guild's own record obtained via `get_session`. -/
theorem query_reports (now gid cid uid threshold : Nat)
    (uname contrasena : String) (target : Nat) (w : World) :
    ((∀ t ∈ get_all_active_sessions w.reg, t.host_user_id ≠ target) →
      (play now gid cid uid uname contrasena (some target) w).1 =
        .stats false none none) ∧
    ((∃ t ∈ get_all_active_sessions w.reg, t.host_user_id = target) →
      ∃ t ∈ get_all_active_sessions w.reg, t.host_user_id = target ∧
        (play now gid cid uid uname contrasena (some target) w).1 =
          .stats true (some (get_duration t now)) (some (pwdTruthy t.password))) ∧
    (∀ s, get_session w.reg gid = some s → s.is_active = true →
      session_info threshold now gid w =
        (.info s.host_username s.participant_count (get_duration s now)
          s.start_time s.channel_id
          (is_long_session (get_duration s now) threshold), w)) := by
  refine ⟨?_, ?_, ?_⟩
  · intro h
    have hf : List.find? (fun t => t.host_user_id == target)
        (get_all_active_sessions w.reg) = none :=
      List.find?_eq_none.mpr (fun t ht => by simp [h t ht])
    simp [play, hf]
  · rintro ⟨t, ht, htar⟩
    have hiss : (List.find? (fun t => t.host_user_id == target)
        (get_all_active_sessions w.reg)).isSome :=
      List.find?_isSome.mpr ⟨t, ht, by simp [htar]⟩
    obtain ⟨u, hu⟩ := Option.isSome_iff_exists.mp hiss
    refine ⟨u, List.mem_of_find?_eq_some hu, ?_, ?_⟩
    · have := List.find?_some hu
      simpa using this
    · simp [play, hu]
  · intro s hs hact
    simp [session_info, hs, hact]

/-- C7 witness: user 7 hosts the demo session; a query from another guild
member finds it. -/
theorem query_reports_witness :
    ∃ t ∈ get_all_active_sessions [(1, demoSession)], t.host_user_id = 7 ∧
      (play 5 1 10 2 "bea" "" (some 7) ⟨[(1, demoSession)], []⟩).1 =
        .stats true (some (get_duration t 5)) (some (pwdTruthy t.password)) :=
  (query_reports 5 1 10 2 2 "bea" "" 7 ⟨[(1, demoSession)], []⟩).2.1
    ⟨demoSession, by decide, by decide⟩

/-- `pyStrip` returns the empty string exactly when every character of the
input is whitespace. -/
theorem pyStrip_eq_empty_iff (s : String) :
    pyStrip s = "" ↔ s.toList.all pyIsSpace = true := by
  rw [String.ext_iff]
  show List.reverse (List.dropWhile pyIsSpace
      (List.reverse (List.dropWhile pyIsSpace s.toList))) = ([] : List Char) ↔ _
  rw [List.reverse_eq_nil_iff, List.dropWhile_eq_nil_iff, List.all_eq_true]
  constructor
  · intro h c hc
    rcases List.mem_append.mp
        ((List.takeWhile_append_dropWhile pyIsSpace s.toList).symm ▸ hc) with h1 | h2
    · exact List.mem_takeWhile_imp h1
    · exact h c (List.mem_reverse.mpr h2)
  · intro h c hc
    exact h c ((List.dropWhile_sublist pyIsSpace).subset (List.mem_reverse.mp hc))

/-- `play`'s session-starting branch, fully evaluated: the outcome, new
registry and call trace as functions of the normalized password. -/
theorem play_start (now gid cid uid : Nat) (uname contrasena : String)
    (w : World) :
    play now gid cid uid uname contrasena none w =
      (.announced uname now
        (if pyStrip contrasena ≠ "" then some contrasena else none),
       ⟨(start_session w.reg gid cid uid uname
          (if pyStrip contrasena ≠ "" then some contrasena else none) now).2,
        w.pending⟩,
       [.startCall gid now]) := rfl

/-- After `start_session`, the guild maps to the freshly created record. -/
theorem get_session_start (reg : Registry) (gid cid uid : Nat) (uname : String)
    (pwd : Option String) (now : Nat) :
    get_session (start_session reg gid cid uid uname pwd now).2 gid =
      some (start_session reg gid cid uid uname pwd now).1 := by
  unfold get_session start_session
  dsimp only
  rw [List.find?_append]
  have h1 : List.find? (fun p => p.1 == gid)
      (List.filter (fun p => p.1 != gid) reg) = none := by
    apply List.find?_eq_none.mpr
    intro p hp
    have := (List.mem_filter.mp hp).2
    simpa using this
  rw [h1]
  simp

/-- C9: `/play` without a target user normalizes the password by Python
truthiness of `contraseña.strip()`: an empty or all-whitespace argument is
replaced by no password before `start_session`, so the stored record has
none and the announcement shows none; an argument with some non-whitespace
character is stored verbatim and echoed in the announcement. -/
theorem password_normalization (now gid cid uid : Nat)
    (uname contrasena : String) (w : World) :
    (contrasena.toList.all pyIsSpace = true →
      (play now gid cid uid uname contrasena none w).1 =
        .announced uname now none ∧
      ∃ s, get_session
          (play now gid cid uid uname contrasena none w).2.1.reg gid = some s ∧
        s.password = none) ∧
    (contrasena.toList.all pyIsSpace = false →
      (play now gid cid uid uname contrasena none w).1 =
        .announced uname now (some contrasena) ∧
      ∃ s, get_session
          (play now gid cid uid uname contrasena none w).2.1.reg gid = some s ∧
        s.password = some contrasena) := by
  constructor
  · intro h
    have hstrip : pyStrip contrasena = "" :=
      (pyStrip_eq_empty_iff contrasena).mpr h
    have hcond : ¬ (pyStrip contrasena ≠ "") := fun hne => hne hstrip
    rw [play_start, if_neg hcond]
    exact ⟨rfl, (start_session w.reg gid cid uid uname none now).1,
      get_session_start w.reg gid cid uid uname none now, rfl⟩
  · intro h
    have hcond : pyStrip contrasena ≠ "" := fun heq =>
      by rw [(pyStrip_eq_empty_iff contrasena).mp heq] at h; cases h
    rw [play_start, if_pos hcond]
    exact ⟨rfl, (start_session w.reg gid cid uid uname (some contrasena) now).1,
      get_session_start w.reg gid cid uid uname (some contrasena) now, rfl⟩

/-- C9 witness: an all-whitespace password is dropped — both ordinary
spaces and non-ASCII whitespace such as the file separator 0x1c, which
Python's falsy `"\x1c".strip()` also normalizes away; a password with a
non-whitespace character is kept and echoed. -/
theorem password_normalization_witness :
    (play 0 1 10 7 "ana" "  " none ⟨[], []⟩).1 = .announced "ana" 0 none ∧
    (play 0 1 10 7 "ana" "\x1c\xa0" none ⟨[], []⟩).1 =
      .announced "ana" 0 none ∧
    (play 0 1 10 7 "ana" " x" none ⟨[], []⟩).1 =
      .announced "ana" 0 (some " x") :=
  ⟨((password_normalization 0 1 10 7 "ana" "  " ⟨[], []⟩).1 (by decide)).1,
   ((password_normalization 0 1 10 7 "ana" "\x1c\xa0" ⟨[], []⟩).1 (by decide)).1,
   ((password_normalization 0 1 10 7 "ana" " x" ⟨[], []⟩).2 (by decide)).1⟩

/-- C8: in every trace the program can produce, each tick of either
maintenance timer is strictly preceded by the readiness event (the timers
are started from `on_ready` and their first iteration awaits
`wait_until_ready`); and once readiness has occurred, a valid trace can
always be extended by a further tick of either timer — the loops carry no
stop condition, so only process shutdown ends them. -/
theorem timers_gated_and_unbounded :
    (∀ tr, ValidTrace tr → ∀ pre e suf, tr = pre ++ e :: suf →
      isTick e = true → BotEv.ready ∈ suf) ∧
    (∀ tr, ValidTrace tr → BotEv.ready ∈ tr →
      ValidTrace (.cleanupTick :: tr) ∧ ValidTrace (.warningTick :: tr)) := by
  constructor
  · intro tr htr
    induction htr with
    | nil =>
      intro pre e suf h _
      exact absurd (List.append_eq_nil.mp h.symm).2 (List.cons_ne_nil e suf)
    | ready h ih =>
      intro pre e suf hdec htick
      cases pre with
      | nil =>
        injection hdec with h1 h2
        subst h1
        simp [isTick] at htick
      | cons p pre' =>
        injection hdec with h1 h2
        exact ih pre' e suf h2 htick
    | cleanup h hready ih =>
      intro pre e suf hdec htick
      cases pre with
      | nil =>
        injection hdec with h1 h2
        subst h2
        exact hready
      | cons p pre' =>
        injection hdec with h1 h2
        exact ih pre' e suf h2 htick
    | warning h hready ih =>
      intro pre e suf hdec htick
      cases pre with
      | nil =>
        injection hdec with h1 h2
        subst h2
        exact hready
      | cons p pre' =>
        injection hdec with h1 h2
        exact ih pre' e suf h2 htick
  · intro tr htr hready
    exact ⟨ValidTrace.cleanup htr hready, ValidTrace.warning htr hready⟩

/-- C8 witness: after readiness both timers can tick. -/
theorem timers_gated_and_unbounded_witness :
    ValidTrace [BotEv.cleanupTick, BotEv.ready] ∧
    ValidTrace [BotEv.warningTick, BotEv.ready] :=
  timers_gated_and_unbounded.2 [BotEv.ready]
    (ValidTrace.ready ValidTrace.nil) (List.mem_singleton.mpr rfl)

end SM64Bot
